import Mathlib

/-!
Shallow embedding of `interview_agent.py`: a command-line tool that interviews
a user about a product idea with the "5 Whys" technique and asks a
text-generation service to turn the transcript into a PRD document.

Modelling conventions:
* Python exceptions are values of `PyError`; `KeyboardInterrupt` is kept
  separate because Python's `except Exception` does not catch it.
* The external world is given by oracles: `inputs k` is the result of the
  k-th `input()` call (it may raise), `responses i` the result of the i-th
  `chat.send_message` call in the loop, one extra value for the single
  `model.generate_content` call, and one for the file write.
* Observable behaviour is a trace of `Event`s: console writes, generation
  calls (carrying the prompt that was sent), file writes, and process exit.
* The mutable `self.conversation_history` list and the accumulated events are
  threaded explicitly through a `RunState`.
-/

namespace InterviewAgent

/-- A Python exception, as far as this program distinguishes them:
`KeyboardInterrupt` (a `BaseException`, not caught by `except Exception`)
versus any ordinary `Exception`, carrying its message `str(e)`. -/
inductive PyError where
  | keyboardInterrupt
  | exception (msg : String)
deriving DecidableEq, Repr

/-- Message used when an error is interpolated into an f-string (`str(e)`). -/
def PyError.msg : PyError → String
  | .keyboardInterrupt => "KeyboardInterrupt"
  | .exception m => m

/-- An observable event of the process: a console write (`print`, or the
prompt echoed by `input`), a call to the remote generation service carrying
the prompt text, a file written via `open(name, "w")` followed by
`f.write(content)` (mode "w" truncates, so the event carries the full new
content), or a process exit with a status code. -/
inductive Event where
  | printed (s : String)
  | genCall (prompt : String)
  | fileWrote (name : String) (content : String)
  | exitedProcess (code : Nat)
deriving DecidableEq, Repr

/-- State threaded through the agent's methods: the agent's
`conversation_history` list plus the trace of events so far. -/
structure RunState where
  history : List String
  events : List Event
deriving DecidableEq, Repr

/-- Append one entry to `conversation_history` (`self.conversation_history.append`). -/
def pushHistory (st : RunState) (e : String) : RunState :=
  { st with history := st.history ++ [e] }

/-- Append events to the trace. -/
def pushEvents (st : RunState) (es : List Event) : RunState :=
  { st with events := st.events ++ es }

/-- ANSI code emitted by `colorama.Fore.RED`. -/
def foreRED : String := "\x1b[31m"

/-- ANSI code emitted by `colorama.Fore.GREEN`. -/
def foreGREEN : String := "\x1b[32m"

/-- ANSI code emitted by `colorama.Fore.YELLOW`. -/
def foreYELLOW : String := "\x1b[33m"

/-- ANSI code emitted by `colorama.Fore.BLUE`. -/
def foreBLUE : String := "\x1b[34m"

/-- ANSI code emitted by `colorama.Fore.MAGENTA`. -/
def foreMAGENTA : String := "\x1b[35m"

/-- ANSI code emitted by `colorama.Fore.CYAN`. -/
def foreCYAN : String := "\x1b[36m"

/-- ANSI code emitted by `colorama.Style.RESET_ALL`. -/
def styleRESET : String := "\x1b[0m"

/-- Python truthiness of `os.getenv` results: `not api_key` is true when the
variable is absent (`None`) or set to the empty string. -/
def isFalsyEnv : Option String → Bool
  | none => true
  | some s => s == ""

/-- Model of `configure_genai()`: reads `GOOGLE_API_KEY` from the
environment; if falsy, prints two diagnostics and calls `sys.exit(1)`
(returned as `some 1`); otherwise configures the client locally (no network
traffic) and returns normally (`none`). -/
def configure_genai (env : String → Option String) : List Event × Option Nat :=
  if isFalsyEnv (env "GOOGLE_API_KEY") then
    ([Event.printed (foreRED ++ "Error: GOOGLE_API_KEY not found in environment variables."),
      Event.printed (foreYELLOW ++ "Please set it in a .env file or export it.")],
     some 1)
  else
    ([], none)

/-- The `system_instruction` string built in `start_interview`. -/
def system_instruction : String :=
  "You are an expert Product Manager using the 'Jobs to be Done' (JTBD) framework and '5 Whys' technique. " ++
  "Your goal is to interview a user to uncover the underlying 'Job' they are hiring the product to do. " ++
  "You must ask deep, probing 'Why' questions to get to the root cause. " ++
  "Do not settle for superficial answers. " ++
  "Start by asking about the product idea or problem. " ++
  "Then, recursively ask 'Why' to understand the motivation, context, and desired outcome."

/-- The fixed opening question of the interview. -/
def initial_question : String :=
  "To start, what is the product idea or the problem you are trying to solve?"

/-- The prompt string built in each round of the 5-Whys loop from the user's
previous answer. -/
def whyPrompt (user_input : String) : String :=
  "The user just said: '" ++ user_input ++ "'. " ++
  "Previous conversation context is implied. " ++
  "Ask a specific 'Why' question to dig deeper into the user's motivation or the root problem. " ++
  "Use the '5 Whys' technique. " ++
  "Example: 'Why is that important to you?' or 'Why does this problem occur?' " ++
  "Ensure the question relates to the 'Job to be Done'."

/-- The prompt `input(Fore.YELLOW + "You: " + Style.RESET_ALL)` echoes
before reading a line. -/
def youPrompt : String := foreYELLOW ++ "You: " ++ styleRESET

/-- Python `str.lower()`, applied characterwise to the string's characters
(ASCII case mapping, which is all the exit-keyword comparison can
distinguish). Extensionally this is `String.toLower`; stated on `data` so
that it evaluates inside the kernel. -/
def pyLower (s : String) : String := String.mk (s.data.map Char.toLower)

/-- Python `str.strip()`: drop leading and trailing whitespace characters.
Extensionally this is `String.trim`; stated on `data` so that it evaluates
inside the kernel. -/
def pyStrip (s : String) : String :=
  String.mk
    (((s.data.dropWhile Char.isWhitespace).reverse.dropWhile
        Char.isWhitespace).reverse)

/-- Exit test at the end of each loop round:
`user_input.lower() in ['exit', 'quit', 'done']`. -/
def isExitKeyword (u : String) : Bool :=
  ["exit", "quit", "done"].contains (pyLower u)

/-- The `for i in range(5)` body of `start_interview`, starting at round `i`
with `fuel` rounds remaining and `user_input` holding the previous answer.
Each round: send `whyPrompt user_input` to the chat (one generation call),
strip the response, print and append the agent question, read the next line,
append it, and stop if it is an exit keyword. An error from the generation
call or from `input()` propagates (second component `some e`). -/
def whyLoop (inputs responses : Nat → Except PyError String) :
    Nat → Nat → String → RunState → RunState × Option PyError
  | _, 0, _, st => (st, none)
  | i, fuel + 1, user_input, st =>
    let st := pushEvents st [Event.genCall (whyPrompt user_input)]
    match responses i with
    | .error e => (st, some e)
    | .ok resp =>
      let question := pyStrip resp
      let st := pushEvents st
        [Event.printed (foreBLUE ++ "Agent (" ++ toString (i + 1) ++ "/5): " ++ styleRESET ++ question)]
      let st := pushHistory st ("Agent: " ++ question)
      let st := pushEvents st [Event.printed youPrompt]
      match inputs (i + 1) with
      | .error e => (st, some e)
      | .ok u =>
        let st := pushHistory st ("User: " ++ u)
        if isExitKeyword u then
          (pushEvents st [Event.printed (foreMAGENTA ++ "Ending interview early...")], none)
        else
          whyLoop inputs responses (i + 1) fuel u st

/-- Number of rounds of the 5-Whys loop that run to completion (a round
ended by an exit keyword counts as completed; a round aborted by an
exception does not), mirroring the control flow of `whyLoop`. -/
def loopRounds (inputs responses : Nat → Except PyError String) : Nat → Nat → Nat
  | _, 0 => 0
  | i, fuel + 1 =>
    match responses i with
    | .error _ => 0
    | .ok _ =>
      match inputs (i + 1) with
      | .error _ => 0
      | .ok u =>
        if isExitKeyword u then 1 else 1 + loopRounds inputs responses (i + 1) fuel

/-- Model of `ProductInterviewAgent.start_interview`: prints the banner,
appends the system-instruction entry, prints and appends the initial
question, reads and appends the initial answer (`inputs 0`), then runs the
five-round 5-Whys loop. -/
def start_interview (inputs responses : Nat → Except PyError String)
    (st : RunState) : RunState × Option PyError :=
  let st := pushEvents st
    [Event.printed (foreCYAN ++ "\n=== Gemini Product Manager Agent ==="),
     Event.printed (foreGREEN ++ "Hello! I'm here to help you define your product requirements."),
     Event.printed "I'll ask you a few questions to understand the root problem better.\n"]
  let st := pushHistory st ("System: " ++ system_instruction)
  let st := pushEvents st
    [Event.printed (foreBLUE ++ "Agent: " ++ styleRESET ++ initial_question)]
  let st := pushHistory st ("Agent: " ++ initial_question)
  let st := pushEvents st [Event.printed youPrompt]
  match inputs 0 with
  | .error e => (st, some e)
  | .ok u0 =>
    let st := pushHistory st ("User: " ++ u0)
    whyLoop inputs responses 0 5 u0 st

/-- The instructional template of `generate_prd`, with the transcript
embedded in the middle, exactly as the adjacent string literals of the
source concatenate. -/
def prd_prompt (transcript : String) : String :=
  "Based on the following interview transcript, write a comprehensive " ++
  "Product Requirements Document (PRD) in Markdown format.\n\n" ++
  "TRANSCRIPT:\n" ++
  transcript ++ "\n\n" ++
  "REQUIREMENTS:\n" ++
  "1. Title & Overview\n" ++
  "2. Problem Statement (Root Cause Analysis)\n" ++
  "3. Goals & Success Metrics\n" ++
  "4. User Personas\n" ++
  "5. User Stories\n" ++
  "6. Functional Requirements\n" ++
  "7. Non-functional Requirements\n" ++
  "8. Output strictly in Markdown."

/-- The part of `prd_prompt` before the transcript. -/
def prdPromptIntro : String :=
  "Based on the following interview transcript, write a comprehensive Product Requirements Document (PRD) in Markdown format.\n\nTRANSCRIPT:\n"

/-- The eight numbered requirement lines of the template. -/
def prdSectionLines : List String :=
  ["1. Title & Overview",
   "2. Problem Statement (Root Cause Analysis)",
   "3. Goals & Success Metrics",
   "4. User Personas",
   "5. User Stories",
   "6. Functional Requirements",
   "7. Non-functional Requirements",
   "8. Output strictly in Markdown."]

/-- The part of `prd_prompt` after the transcript. -/
def prdPromptOutro : String :=
  "\n\nREQUIREMENTS:\n" ++ String.intercalate "\n" prdSectionLines

/-- Model of `ProductInterviewAgent.generate_prd`: prints a status line,
joins `conversation_history` with newlines, embeds it in the template, and
issues the single `model.generate_content` call (result given by the
`prdResponse` oracle). Returns `response.text` unchanged on success. -/
def generate_prd (prdResponse : Except PyError String) (st : RunState) :
    RunState × Except PyError String :=
  let st := pushEvents st
    [Event.printed (foreCYAN ++ "\nGenerating Product Requirements Document (PRD)... Please wait.")]
  let transcript := String.intercalate "\n" st.history
  let prompt := prd_prompt transcript
  let st := pushEvents st [Event.genCall prompt]
  match prdResponse with
  | .error e => (st, .error e)
  | .ok text => (st, .ok text)

/-- Model of `ProductInterviewAgent.save_prd`: writes `content` verbatim to
`filename` (the source's default argument is "PRD.md"); on success prints a
success line. Any ordinary `Exception` from the write is caught and reported
(`except Exception as e`); a `KeyboardInterrupt` is a `BaseException` and
propagates. -/
def save_prd (writeResult : Except PyError Unit) (content : String)
    (filename : String) (st : RunState) : RunState × Option PyError :=
  match writeResult with
  | .ok _ =>
    (pushEvents st
      [Event.fileWrote filename content,
       Event.printed (foreGREEN ++ "\nSuccess! PRD saved to " ++ filename)], none)
  | .error .keyboardInterrupt => (st, some PyError.keyboardInterrupt)
  | .error (.exception m) =>
    (pushEvents st [Event.printed (foreRED ++ "Error saving file: " ++ m)], none)

/-- The body of the `try` block in `main`: run the interview, generate the
PRD, save it. The second component is the exception escaping the block, if
any. -/
def mainBody (inputs responses : Nat → Except PyError String)
    (prdResponse : Except PyError String) (writeResult : Except PyError Unit)
    (st : RunState) : RunState × Option PyError :=
  match start_interview inputs responses st with
  | (st1, some e) => (st1, some e)
  | (st1, none) =>
    match generate_prd prdResponse st1 with
    | (st2, .error e) => (st2, some e)
    | (st2, .ok content) => save_prd writeResult content "PRD.md" st2

/-- Console message printed by the matching `except` clause of `main`. -/
def handlerMsg : PyError → String
  | .keyboardInterrupt => foreRED ++ "\nProcess interrupted."
  | .exception m => foreRED ++ "\nAn error occurred: " ++ m

/-- Model of `main()`: `configure_genai` may exit the process with status 1
before anything else; otherwise the `try` body runs, `except
KeyboardInterrupt` and `except Exception` turn any escaping exception into a
console message, and the process falls off the end of `main` (exit status 0
— there is no structured error code). -/
def main (env : String → Option String)
    (inputs responses : Nat → Except PyError String)
    (prdResponse : Except PyError String) (writeResult : Except PyError Unit) :
    List Event :=
  match configure_genai env with
  | (evs, some code) => evs ++ [Event.exitedProcess code]
  | (evs, none) =>
    match mainBody inputs responses prdResponse writeResult ⟨[], evs⟩ with
    | (st, none) => st.events ++ [Event.exitedProcess 0]
    | (st, some e) =>
      st.events ++ [Event.printed (handlerMsg e), Event.exitedProcess 0]

/-- Number of generation-service calls recorded in a trace. -/
def genCallCount (es : List Event) : Nat :=
  es.countP fun e => match e with | Event.genCall _ => true | _ => false

/-- Interpretation of a trace against a file system (name ↦ content):
`fileWrote` replaces the file's content (mode "w" truncates), every other
event leaves the file system unchanged. -/
def applyEvents (fs : String → Option String) : List Event → (String → Option String)
  | [] => fs
  | Event.fileWrote name c :: rest =>
    applyEvents (fun n => if n = name then some c else fs n) rest
  | _ :: rest => applyEvents fs rest

/-- Index of the first loop round whose answer is an exit keyword, if any
(round `i` reads the `(i+1)`-th input line). -/
def firstExitRound (inp : Nat → String) : Option Nat :=
  (List.range 5).find? fun i => isExitKeyword (inp (i + 1))

/-- An entry of `conversation_history` carries one of the three role labels. -/
def RoleLabeled (e : String) : Prop :=
  (∃ r, e = "System: " ++ r) ∨ (∃ r, e = "Agent: " ++ r) ∨ (∃ r, e = "User: " ++ r)

/-- Round `j` of the loop runs to completion and does not exit: the
generation call succeeds and the answer read is not an exit keyword. -/
def roundOk (inputs responses : Nat → Except PyError String) (j : Nat) : Prop :=
  (∃ q, responses j = Except.ok q) ∧
  ∃ s, inputs (j + 1) = Except.ok s ∧ isExitKeyword s = false

/-- Concrete environment holding the credential (for instantiations). -/
def keyEnv : String → Option String :=
  fun k => if k = "GOOGLE_API_KEY" then some "test-key" else none

/-- Concrete environment without the credential. -/
def noEnv : String → Option String := fun _ => none

/-- Concrete input oracle: every line read is "a". -/
def okIn : Nat → Except PyError String := fun _ => Except.ok "a"

/-- Concrete input oracle: the answer in loop round 2 (the 3rd input line)
is "Done", an exit keyword. -/
def exitIn : Nat → Except PyError String :=
  fun k => Except.ok (if k = 3 then "Done" else "a")

/-- Concrete response oracle: every generation call succeeds. -/
def okResp : Nat → Except PyError String :=
  fun _ => Except.ok "Why is that important?"

/-- Concrete response oracle: the generation call of loop round 2 raises. -/
def failResp : Nat → Except PyError String :=
  fun j => if j = 2 then Except.error (PyError.exception "network down")
           else Except.ok "Why is that important?"

/-- Concrete line stream: every answer is "a". -/
def inpA : Nat → String := fun _ => "a"

/-- Concrete line stream: the answer of loop round 2 (the 3rd line) is
"Done", an exit keyword. -/
def inpExit2 : Nat → String := fun k => if k = 3 then "Done" else "a"

/-- Concrete generated-question stream. -/
def respQ : Nat → String := fun _ => "Why is that important?"

theorem roleLabeled_system (s : String) : RoleLabeled ("System: " ++ s) :=
  Or.inl ⟨s, rfl⟩

theorem roleLabeled_agent (q : String) : RoleLabeled ("Agent: " ++ q) :=
  Or.inr (Or.inl ⟨q, rfl⟩)

theorem roleLabeled_user (u : String) : RoleLabeled ("User: " ++ u) :=
  Or.inr (Or.inr ⟨u, rfl⟩)

theorem loopRounds_le (inputs responses : Nat → Except PyError String) :
    ∀ fuel i, loopRounds inputs responses i fuel ≤ fuel := by
  intro fuel
  induction fuel with
  | zero => intro i; simp [loopRounds]
  | succ n ih =>
    intro i
    simp only [loopRounds]
    cases hr : responses i with
    | error e => exact Nat.zero_le _
    | ok q =>
      cases hi : inputs (i + 1) with
      | error e => exact Nat.zero_le _
      | ok u =>
        by_cases hu : isExitKeyword u
        · simp [hu]
        · simp [hu]
          have := ih (i + 1)
          omega

theorem whyLoop_length (inputs responses : Nat → Except PyError String) :
    ∀ fuel i u st, (whyLoop inputs responses i fuel u st).2 = none →
      (whyLoop inputs responses i fuel u st).1.history.length =
        st.history.length + 2 * loopRounds inputs responses i fuel := by
  intro fuel
  induction fuel with
  | zero => intro i u st _; simp [whyLoop, loopRounds]
  | succ n ih =>
    intro i u st h
    simp only [whyLoop, loopRounds, pushEvents, pushHistory] at h ⊢
    cases hr : responses i with
    | error e => simp [hr] at h
    | ok q =>
      simp only [hr] at h ⊢
      cases hi : inputs (i + 1) with
      | error e => simp [hi] at h
      | ok u2 =>
        simp only [hi] at h ⊢
        by_cases hu : isExitKeyword u2
        · simp [hu]
        · simp only [hu, if_false, Bool.false_eq_true] at h ⊢
          rw [ih (i + 1) u2 _ h]
          simp
          omega

theorem whyLoop_total_none (inp resp : Nat → String) :
    ∀ fuel i u st,
      (whyLoop (fun k => Except.ok (inp k)) (fun k => Except.ok (resp k)) i fuel u st).2 =
        none := by
  intro fuel
  induction fuel with
  | zero => intro i u st; simp [whyLoop]
  | succ n ih =>
    intro i u st
    simp only [whyLoop]
    by_cases hu : isExitKeyword (inp (i + 1))
    · simp [hu]
    · simp only [hu, if_false, Bool.false_eq_true]
      exact ih (i + 1) (inp (i + 1)) _

theorem whyLoop_genCallCount (inputs responses : Nat → Except PyError String) :
    ∀ fuel i u st, (whyLoop inputs responses i fuel u st).2 = none →
      genCallCount (whyLoop inputs responses i fuel u st).1.events =
        genCallCount st.events + loopRounds inputs responses i fuel := by
  intro fuel
  induction fuel with
  | zero => intro i u st _; simp [whyLoop, loopRounds]
  | succ n ih =>
    intro i u st h
    simp only [whyLoop, loopRounds, pushEvents, pushHistory] at h ⊢
    cases hr : responses i with
    | error e => simp [hr] at h
    | ok q =>
      simp only [hr] at h ⊢
      cases hi : inputs (i + 1) with
      | error e => simp [hi] at h
      | ok u2 =>
        simp only [hi] at h ⊢
        by_cases hu : isExitKeyword u2
        · simp [hu, genCallCount, List.countP_append, List.countP_cons]
        · simp only [hu, if_false, Bool.false_eq_true] at h ⊢
          rw [ih (i + 1) u2 _ h]
          simp [genCallCount, List.countP_append, List.countP_cons]
          omega

theorem loopRounds_total_of_no_exit (inp resp : Nat → String) :
    ∀ fuel i, (∀ k, k < fuel → isExitKeyword (inp (i + k + 1)) = false) →
      loopRounds (fun m => Except.ok (inp m)) (fun m => Except.ok (resp m)) i fuel =
        fuel := by
  intro fuel
  induction fuel with
  | zero => intro i _; simp [loopRounds]
  | succ n ih =>
    intro i h
    have h0 : isExitKeyword (inp (i + 1)) = false := by
      have := h 0 (by omega); simpa using this
    simp only [loopRounds, h0, if_false, Bool.false_eq_true]
    have := ih (i + 1) fun k hk => by
      have := h (k + 1) (by omega)
      have harith : i + (k + 1) + 1 = i + 1 + k + 1 := by omega
      rw [harith] at this
      exact this
    omega

theorem loopRounds_total_exit_at (inp resp : Nat → String) :
    ∀ k fuel i, k < fuel → isExitKeyword (inp (i + k + 1)) = true →
      (∀ j, j < k → isExitKeyword (inp (i + j + 1)) = false) →
      loopRounds (fun m => Except.ok (inp m)) (fun m => Except.ok (resp m)) i fuel =
        k + 1 := by
  intro k
  induction k with
  | zero =>
    intro fuel i hk hex _
    cases fuel with
    | zero => omega
    | succ n =>
      have h0 : isExitKeyword (inp (i + 1)) = true := by simpa using hex
      simp [loopRounds, h0]
  | succ m ih =>
    intro fuel i hk hex hprev
    cases fuel with
    | zero => omega
    | succ n =>
      have h0 : isExitKeyword (inp (i + 1)) = false := by
        have := hprev 0 (by omega); simpa using this
      simp only [loopRounds, h0, if_false, Bool.false_eq_true]
      have hex2 : isExitKeyword (inp (i + 1 + m + 1)) = true := by
        have harith : i + 1 + m + 1 = i + (m + 1) + 1 := by omega
        rw [harith]; exact hex
      have hprev2 : ∀ j, j < m → isExitKeyword (inp (i + 1 + j + 1)) = false := by
        intro j hj
        have := hprev (j + 1) (by omega)
        have harith : i + (j + 1) + 1 = i + 1 + j + 1 := by omega
        rw [harith] at this
        exact this
      have := ih n (i + 1) (by omega) hex2 hprev2
      omega

theorem loopRounds_total_pos (inp resp : Nat → String) (i n : Nat) :
    1 ≤ loopRounds (fun m => Except.ok (inp m)) (fun m => Except.ok (resp m)) i
          (n + 1) := by
  simp only [loopRounds]
  by_cases h : isExitKeyword (inp (i + 1)) <;> simp [h]

theorem loopRounds_congr (responses : Nat → Except PyError String) :
    ∀ fuel i (f g : Nat → Except PyError String), (∀ k, i + 1 ≤ k → f k = g k) →
      loopRounds f responses i fuel = loopRounds g responses i fuel := by
  intro fuel
  induction fuel with
  | zero => intro i f g _; simp [loopRounds]
  | succ n ih =>
    intro i f g h
    simp only [loopRounds]
    cases hr : responses i with
    | error e => rfl
    | ok q =>
      have hfg : f (i + 1) = g (i + 1) := h (i + 1) (by omega)
      rw [hfg]
      cases hi : g (i + 1) with
      | error e => rfl
      | ok u =>
        by_cases hu : isExitKeyword u
        · simp [hu]
        · simp only [hu, if_false, Bool.false_eq_true]
          rw [ih (i + 1) f g fun k hk => h k (by omega)]

theorem whyLoop_history_extend (inputs responses : Nat → Except PyError String) :
    ∀ fuel i u st, ∃ new,
      (whyLoop inputs responses i fuel u st).1.history = st.history ++ new ∧
      ∀ e ∈ new, RoleLabeled e := by
  intro fuel
  induction fuel with
  | zero => intro i u st; exact ⟨[], by simp [whyLoop], by simp⟩
  | succ n ih =>
    intro i u st
    simp only [whyLoop, pushEvents, pushHistory]
    cases hr : responses i with
    | error e => exact ⟨[], by simp, by simp⟩
    | ok q =>
      cases hi : inputs (i + 1) with
      | error e =>
        refine ⟨["Agent: " ++ pyStrip q], by simp, ?_⟩
        intro e he
        simp at he
        subst he
        exact roleLabeled_agent _
      | ok u2 =>
        by_cases hu : isExitKeyword u2
        · refine ⟨["Agent: " ++ pyStrip q, "User: " ++ u2], by simp [hu], ?_⟩
          intro e he
          simp at he
          rcases he with he | he <;> subst he
          · exact roleLabeled_agent _
          · exact roleLabeled_user _
        · obtain ⟨new, hnew, hlab⟩ := ih (i + 1) u2
            ⟨st.history ++ ["Agent: " ++ pyStrip q] ++ ["User: " ++ u2],
             ((st.events ++ [Event.genCall (whyPrompt u)]) ++
               [Event.printed (foreBLUE ++ "Agent (" ++ toString (i + 1) ++ "/5): " ++
                 styleRESET ++ pyStrip q)]) ++ [Event.printed youPrompt]⟩
          refine ⟨["Agent: " ++ pyStrip q] ++ ["User: " ++ u2] ++ new, ?_, ?_⟩
          · simp only [hu, if_false, Bool.false_eq_true]
            simp at hnew ⊢
            simpa using hnew
          · intro e he
            simp at he
            rcases he with he | he | he
            · subst he; exact roleLabeled_agent _
            · subst he; exact roleLabeled_user _
            · exact hlab e he

theorem whyLoop_error_reach (inputs responses : Nat → Except PyError String)
    (e : PyError) :
    ∀ k fuel i u st, k < fuel →
      (∀ j, j < k → roundOk inputs responses (i + j)) →
      responses (i + k) = Except.error e →
      (whyLoop inputs responses i fuel u st).2 = some e ∧
      genCallCount (whyLoop inputs responses i fuel u st).1.events =
        genCallCount st.events + (k + 1) ∧
      (whyLoop inputs responses i fuel u st).1.history.length =
        st.history.length + 2 * k := by
  intro k
  induction k with
  | zero =>
    intro fuel i u st hk _ herr
    cases fuel with
    | zero => omega
    | succ n =>
      have h0 : responses i = Except.error e := by simpa using herr
      simp [whyLoop, h0, pushEvents, genCallCount, List.countP_append, List.countP_cons]
  | succ m ih =>
    intro fuel i u st hk hprev herr
    cases fuel with
    | zero => omega
    | succ n =>
      obtain ⟨⟨q, hq⟩, s, hs, hsx⟩ := hprev 0 (by omega)
      have hq0 : responses i = Except.ok q := by simpa using hq
      simp only [whyLoop, pushEvents, pushHistory, hq0, hs, hsx, if_false,
        Bool.false_eq_true]
      have herr2 : responses (i + 1 + m) = Except.error e := by
        have harith : i + 1 + m = i + (m + 1) := by omega
        rw [harith]; exact herr
      have hprev2 : ∀ j, j < m → roundOk inputs responses (i + 1 + j) := by
        intro j hj
        have := hprev (j + 1) (by omega)
        have harith : i + (j + 1) = i + 1 + j := by omega
        rw [harith] at this
        exact this
      have := ih n (i + 1) s
        ⟨st.history ++ ["Agent: " ++ pyStrip q] ++ ["User: " ++ s],
         ((st.events ++ [Event.genCall (whyPrompt u)]) ++
           [Event.printed (foreBLUE ++ "Agent (" ++ toString (i + 1) ++ "/5): " ++
             styleRESET ++ pyStrip q)]) ++ [Event.printed youPrompt]⟩
        (by omega) hprev2 herr2
      refine ⟨this.1, ?_, ?_⟩
      · rw [this.2.1]
        simp [genCallCount, List.countP_append, List.countP_cons]
        omega
      · rw [this.2.2]
        simp
        omega

theorem applyEvents_append (fs : String → Option String) :
    ∀ l1 l2 : List Event,
      applyEvents fs (l1 ++ l2) = applyEvents (applyEvents fs l1) l2 := by
  intro l1
  induction l1 generalizing fs with
  | nil => intro l2; simp [applyEvents]
  | cons e rest ih =>
    intro l2
    cases e <;> simp [applyEvents, ih]

/-- C1: for every run of `start_interview` that returns normally, the length
of `conversation_history` equals `2 * n + 3`, where
`n = loopRounds inputs responses 0 5` is the number of completed rounds of
the 5-Whys loop (a round ended by an exit keyword counts as completed) and
`0 ≤ n ≤ 5`: one system-instruction entry, the initial agent question and
user answer, plus two entries per completed round. -/
theorem c1_history_length (inputs responses : Nat → Except PyError String)
    (h : (start_interview inputs responses ⟨[], []⟩).2 = none) :
    (start_interview inputs responses ⟨[], []⟩).1.history.length =
      2 * loopRounds inputs responses 0 5 + 3 ∧
    loopRounds inputs responses 0 5 ≤ 5 := by
  refine ⟨?_, loopRounds_le inputs responses 5 0⟩
  simp only [start_interview, pushEvents, pushHistory] at h ⊢
  cases h0 : inputs 0 with
  | error e => simp [h0] at h
  | ok u0 =>
    simp only [h0] at h ⊢
    rw [whyLoop_length inputs responses 5 0 u0 _ h]
    simp
    omega

theorem c1_history_length_witness :
    (start_interview okIn okResp ⟨[], []⟩).1.history.length =
      2 * loopRounds okIn okResp 0 5 + 3 ∧
    loopRounds okIn okResp 0 5 ≤ 5 :=
  c1_history_length okIn okResp rfl

/-- C2: with every input line and generation call succeeding, the 5-Whys
loop completes exactly five rounds when no answer matches an exit keyword;
if the first exit keyword appears as the answer of round `k`, the loop
completes exactly `k + 1` rounds (ending with that round); and the number of
generation calls `start_interview` makes equals the number of completed
rounds, so no further round begins after an exit. -/
theorem c2_five_rounds_unless_exit (inp resp : Nat → String) (st : RunState) :
    ((∀ k, k < 5 → isExitKeyword (inp (k + 1)) = false) →
      loopRounds (fun m => Except.ok (inp m)) (fun m => Except.ok (resp m)) 0 5 =
        5) ∧
    (∀ k, k < 5 → isExitKeyword (inp (k + 1)) = true →
      (∀ j, j < k → isExitKeyword (inp (j + 1)) = false) →
      loopRounds (fun m => Except.ok (inp m)) (fun m => Except.ok (resp m)) 0 5 =
        k + 1) ∧
    genCallCount ((start_interview (fun m => Except.ok (inp m))
        (fun m => Except.ok (resp m)) st).1.events) =
      genCallCount st.events +
        loopRounds (fun m => Except.ok (inp m)) (fun m => Except.ok (resp m)) 0
          5 := by
  refine ⟨?_, ?_, ?_⟩
  · intro h
    exact loopRounds_total_of_no_exit inp resp 5 0 fun k hk => by
      simpa using h k hk
  · intro k hk hex hprev
    exact loopRounds_total_exit_at inp resp k 5 0 hk (by simpa using hex)
      fun j hj => by simpa using hprev j hj
  · simp only [start_interview, pushEvents, pushHistory]
    rw [whyLoop_genCallCount _ _ 5 0 (inp 0) _
      (whyLoop_total_none inp resp 5 0 (inp 0) _)]
    simp [genCallCount, List.countP_append, List.countP_cons]

theorem c2_five_rounds_unless_exit_witness :
    loopRounds (fun m => Except.ok (inpA m)) (fun m => Except.ok (respQ m)) 0 5 =
      5 ∧
    loopRounds (fun m => Except.ok (inpExit2 m)) (fun m => Except.ok (respQ m))
      0 5 = 3 :=
  ⟨(c2_five_rounds_unless_exit inpA respQ ⟨[], []⟩).1 (by decide),
   (c2_five_rounds_unless_exit inpExit2 respQ ⟨[], []⟩).2.1 2 (by decide)
     (by decide) (by decide)⟩

/-- C3: if GOOGLE_API_KEY is absent from the environment, the process prints
the two diagnostic lines and exits with status 1, and the trace contains no
generation call and no exit with status 0. -/
theorem c3_missing_credential (env : String → Option String)
    (inputs responses : Nat → Except PyError String)
    (prdResponse : Except PyError String) (writeResult : Except PyError Unit)
    (h : env "GOOGLE_API_KEY" = none) :
    main env inputs responses prdResponse writeResult =
      [Event.printed
        (foreRED ++ "Error: GOOGLE_API_KEY not found in environment variables."),
       Event.printed (foreYELLOW ++ "Please set it in a .env file or export it."),
       Event.exitedProcess 1] ∧
    (∀ p, Event.genCall p ∉ main env inputs responses prdResponse writeResult) ∧
    ∀ c, Event.exitedProcess c ∈ main env inputs responses prdResponse writeResult →
      c ≠ 0 := by
  have hm : main env inputs responses prdResponse writeResult =
      [Event.printed
        (foreRED ++ "Error: GOOGLE_API_KEY not found in environment variables."),
       Event.printed (foreYELLOW ++ "Please set it in a .env file or export it."),
       Event.exitedProcess 1] := by
    simp [main, configure_genai, isFalsyEnv, h]
  refine ⟨hm, ?_, ?_⟩
  · intro p
    rw [hm]
    simp
  · intro c hc
    rw [hm] at hc
    simp at hc
    omega

theorem c3_missing_credential_witness :
    main noEnv okIn okResp (Except.ok "doc") (Except.ok ()) =
      [Event.printed
        (foreRED ++ "Error: GOOGLE_API_KEY not found in environment variables."),
       Event.printed (foreYELLOW ++ "Please set it in a .env file or export it."),
       Event.exitedProcess 1] ∧
    (∀ p, Event.genCall p ∉ main noEnv okIn okResp (Except.ok "doc") (Except.ok ())) ∧
    ∀ c, Event.exitedProcess c ∈ main noEnv okIn okResp (Except.ok "doc") (Except.ok ()) →
      c ≠ 0 :=
  c3_missing_credential noEnv okIn okResp (Except.ok "doc") (Except.ok ()) rfl

/-- C5: `generate_prd` renders the conversation history as flat text joined
with newlines, embeds it into the fixed instructional template (whose tail
is the REQUIREMENTS block listing the eight numbered sections), issues
exactly one generation call, and returns the raw response text unchanged —
no validation of the document's structure. -/
theorem c5_generate_prd (st : RunState) (r : String) :
    generate_prd (Except.ok r) st =
      ({ st with
          events := st.events ++
            [Event.printed
              (foreCYAN ++ "\nGenerating Product Requirements Document (PRD)... Please wait."),
             Event.genCall (prd_prompt (String.intercalate "\n" st.history))] },
       Except.ok r) ∧
    genCallCount ((generate_prd (Except.ok r) st).1.events) =
      genCallCount st.events + 1 ∧
    (∀ t, prd_prompt t = prdPromptIntro ++ (t ++ prdPromptOutro)) ∧
    prdSectionLines.length = 8 := by
  refine ⟨?_, ?_, ?_, rfl⟩
  · simp [generate_prd, pushEvents]
  · simp [generate_prd, pushEvents, genCallCount, List.countP_append,
      List.countP_cons]
  · intro t
    have hI : prdPromptIntro =
        "Based on the following interview transcript, write a comprehensive " ++
        ("Product Requirements Document (PRD) in Markdown format.\n\n" ++
          "TRANSCRIPT:\n") := rfl
    have hO : prdPromptOutro =
        "\n\n" ++ ("REQUIREMENTS:\n" ++ ("1. Title & Overview\n" ++
          ("2. Problem Statement (Root Cause Analysis)\n" ++
          ("3. Goals & Success Metrics\n" ++ ("4. User Personas\n" ++
          ("5. User Stories\n" ++ ("6. Functional Requirements\n" ++
          ("7. Non-functional Requirements\n" ++
            "8. Output strictly in Markdown.")))))))) := rfl
    rw [hI, hO]
    simp only [prd_prompt, String.append_assoc]

/-- C6: `save_prd` writes the generated text verbatim to the fixed filename
PRD.md (mode "w" replaces any existing content regardless of the previous
file system state); on an ordinary write failure it prints an error message
and returns normally — the failure does not raise past `save_prd` and the
already-recorded history and events are untouched. -/
theorem c6_save_prd (content : String) (st : RunState) :
    save_prd (Except.ok ()) content "PRD.md" st =
      ({ st with
          events := st.events ++
            [Event.fileWrote "PRD.md" content,
             Event.printed (foreGREEN ++ "\nSuccess! PRD saved to PRD.md")] },
       none) ∧
    (∀ fs : String → Option String,
      applyEvents fs [Event.fileWrote "PRD.md" content] "PRD.md" = some content) ∧
    ∀ m, save_prd (Except.error (PyError.exception m)) content "PRD.md" st =
      ({ st with
          events := st.events ++
            [Event.printed (foreRED ++ "Error saving file: " ++ m)] },
       none) := by
  refine ⟨?_, ?_, ?_⟩
  · have h : ("\nSuccess! PRD saved to " ++ "PRD.md" : String) =
        "\nSuccess! PRD saved to PRD.md" := rfl
    simp [save_prd, pushEvents, String.append_assoc, h]
  · intro fs
    simp [applyEvents]
  · intro m
    simp [save_prd, pushEvents]

/-- C7: if the generation call of loop round `k` fails after rounds
`0..k-1` completed without exiting, the exception propagates out of
`start_interview` (it is the run's escaping error) and no further round
runs: exactly `k + 1` generation calls were made in total (the failing one
is the last, so there is no retry) and the history still holds only the
`2 * k + 3` entries of the completed part. -/
theorem c7_generation_failure_propagates
    (inputs responses : Nat → Except PyError String) (k : Nat) (e : PyError)
    (u0 : String) (hk : k < 5) (h0 : inputs 0 = Except.ok u0)
    (hprev : ∀ j, j < k → roundOk inputs responses j)
    (herr : responses k = Except.error e) :
    (start_interview inputs responses ⟨[], []⟩).2 = some e ∧
    genCallCount (start_interview inputs responses ⟨[], []⟩).1.events = k + 1 ∧
    (start_interview inputs responses ⟨[], []⟩).1.history.length =
      2 * k + 3 := by
  simp only [start_interview, pushEvents, pushHistory, h0, List.nil_append,
    List.cons_append, List.append_assoc, List.singleton_append]
  have H := whyLoop_error_reach inputs responses e k 5 0 u0
    ⟨["System: " ++ system_instruction, "Agent: " ++ initial_question,
      "User: " ++ u0],
     [Event.printed (foreCYAN ++ "\n=== Gemini Product Manager Agent ==="),
      Event.printed
        (foreGREEN ++ "Hello! I'm here to help you define your product requirements."),
      Event.printed "I'll ask you a few questions to understand the root problem better.\n",
      Event.printed (foreBLUE ++ "Agent: " ++ styleRESET ++ initial_question),
      Event.printed youPrompt]⟩
    hk (by simpa using hprev) (by simpa using herr)
  refine ⟨H.1, ?_, ?_⟩
  · rw [H.2.1]
    simp [genCallCount, List.countP_cons]
  · rw [H.2.2]
    simp
    omega

theorem c7_generation_failure_propagates_witness :
    (start_interview okIn failResp ⟨[], []⟩).2 =
      some (PyError.exception "network down") ∧
    genCallCount (start_interview okIn failResp ⟨[], []⟩).1.events = 2 + 1 ∧
    (start_interview okIn failResp ⟨[], []⟩).1.history.length = 2 * 2 + 3 :=
  c7_generation_failure_propagates okIn failResp 2
    (PyError.exception "network down") "a" (by omega) rfl
    (by
      intro j hj
      refine ⟨⟨"Why is that important?", ?_⟩, "a", rfl, by decide⟩
      simp only [failResp]
      have : j ≠ 2 := by omega
      simp [this])
    rfl

/-- C8: the conversation history is append-only and role-labelled: a run of
`start_interview` only extends the history it starts from, every entry it
adds carries one of the prefixes "System: ", "Agent: " or "User: ", and
neither `generate_prd` nor `save_prd` changes the history at all. -/
theorem c8_history_append_only_labeled (st : RunState)
    (inputs responses : Nat → Except PyError String)
    (prdResponse : Except PyError String) (writeResult : Except PyError Unit) :
    (∃ new, (start_interview inputs responses st).1.history = st.history ++ new ∧
      ∀ e ∈ new, RoleLabeled e) ∧
    (generate_prd prdResponse st).1.history = st.history ∧
    ∀ content filename,
      (save_prd writeResult content filename st).1.history = st.history := by
  refine ⟨?_, ?_, ?_⟩
  · simp only [start_interview, pushEvents, pushHistory]
    cases h0 : inputs 0 with
    | error e =>
      refine ⟨["System: " ++ system_instruction, "Agent: " ++ initial_question],
        by simp, ?_⟩
      intro x hx
      simp at hx
      rcases hx with hx | hx <;> subst hx
      · exact roleLabeled_system _
      · exact roleLabeled_agent _
    | ok u0 =>
      obtain ⟨new, hnew, hlab⟩ := whyLoop_history_extend inputs responses 5 0 u0
        ⟨((st.history ++ ["System: " ++ system_instruction]) ++
            ["Agent: " ++ initial_question]) ++ ["User: " ++ u0],
         ((st.events ++
            [Event.printed (foreCYAN ++ "\n=== Gemini Product Manager Agent ==="),
             Event.printed
               (foreGREEN ++ "Hello! I'm here to help you define your product requirements."),
             Event.printed "I'll ask you a few questions to understand the root problem better.\n"]) ++
           [Event.printed (foreBLUE ++ "Agent: " ++ styleRESET ++ initial_question)]) ++
          [Event.printed youPrompt]⟩
      refine ⟨["System: " ++ system_instruction, "Agent: " ++ initial_question,
        "User: " ++ u0] ++ new, ?_, ?_⟩
      · rw [hnew]
        simp
      · intro x hx
        simp at hx
        rcases hx with hx | hx | hx | hx
        · subst hx; exact roleLabeled_system _
        · subst hx; exact roleLabeled_agent _
        · subst hx; exact roleLabeled_user _
        · exact hlab x hx
  · cases prdResponse <;> simp [generate_prd, pushEvents]
  · intro content filename
    cases writeResult with
    | ok u => simp [save_prd, pushEvents]
    | error e => cases e <;> simp [save_prd, pushEvents]

theorem c8_history_append_only_labeled_witness :
    (∃ new,
      (start_interview okIn okResp ⟨["pre"], []⟩).1.history = ["pre"] ++ new ∧
      ∀ e ∈ new, RoleLabeled e) ∧
    (generate_prd (Except.ok "doc") ⟨["pre"], []⟩).1.history = ["pre"] ∧
    ∀ content filename,
      (save_prd (Except.ok ()) content filename ⟨["pre"], []⟩).1.history =
        ["pre"] :=
  c8_history_append_only_labeled ⟨["pre"], []⟩ okIn okResp (Except.ok "doc")
    (Except.ok ())

theorem start_interview_take3 (inputs responses : Nat → Except PyError String)
    (u0 : String) (h0 : inputs 0 = Except.ok u0) :
    (start_interview inputs responses ⟨[], []⟩).1.history.take 3 =
      ["System: " ++ system_instruction, "Agent: " ++ initial_question,
       "User: " ++ u0] := by
  simp only [start_interview, pushEvents, pushHistory, h0, List.nil_append,
    List.cons_append, List.append_assoc, List.singleton_append]
  obtain ⟨new, hnew, _⟩ := whyLoop_history_extend inputs responses 5 0 u0
    ⟨["System: " ++ system_instruction, "Agent: " ++ initial_question,
      "User: " ++ u0],
     [Event.printed (foreCYAN ++ "\n=== Gemini Product Manager Agent ==="),
      Event.printed
        (foreGREEN ++ "Hello! I'm here to help you define your product requirements."),
      Event.printed "I'll ask you a few questions to understand the root problem better.\n",
      Event.printed (foreBLUE ++ "Agent: " ++ styleRESET ++ initial_question),
      Event.printed youPrompt]⟩
  rw [hnew]
  rfl

/-- C10: an exit keyword given as the initial answer does not end the
interview: it is recorded in the history like any answer (as the third
entry, "User: " ++ s) and the loop still begins (at least one round runs);
the round count depends only on the loop answers (input lines 1 and later),
not on the initial answer; and the exit test fires only on an exact match of
the lowercased input, so surrounding whitespace defeats it. -/
theorem c10_exit_checked_only_in_loop (s : String)
    (_hs : isExitKeyword s = true) (inp resp : Nat → String) :
    ((start_interview (fun k => Except.ok (if k = 0 then s else inp k))
        (fun k => Except.ok (resp k)) ⟨[], []⟩).1.history.take 3 =
      ["System: " ++ system_instruction, "Agent: " ++ initial_question,
       "User: " ++ s]) ∧
    1 ≤ loopRounds (fun k => Except.ok (if k = 0 then s else inp k))
          (fun k => Except.ok (resp k)) 0 5 ∧
    (∀ f g responses : Nat → Except PyError String,
      (∀ k, 1 ≤ k → f k = g k) →
      loopRounds f responses 0 5 = loopRounds g responses 0 5) ∧
    isExitKeyword "EXIT" = true ∧ isExitKeyword "Quit" = true ∧
    isExitKeyword " exit" = false ∧ isExitKeyword "exit " = false := by
  refine ⟨?_, ?_, ?_, by decide, by decide, by decide, by decide⟩
  · exact start_interview_take3 _ _ s (by simp)
  · exact loopRounds_total_pos (fun k => if k = 0 then s else inp k) resp 0 4
  · intro f g responses h
    exact loopRounds_congr responses 5 0 f g h

theorem c10_exit_checked_only_in_loop_witness :
    ((start_interview (fun k => Except.ok (if k = 0 then "Done" else inpA k))
        (fun k => Except.ok (respQ k)) ⟨[], []⟩).1.history.take 3 =
      ["System: " ++ system_instruction, "Agent: " ++ initial_question,
       "User: " ++ "Done"]) ∧
    1 ≤ loopRounds (fun k => Except.ok (if k = 0 then "Done" else inpA k))
          (fun k => Except.ok (respQ k)) 0 5 ∧
    (∀ f g responses : Nat → Except PyError String,
      (∀ k, 1 ≤ k → f k = g k) →
      loopRounds f responses 0 5 = loopRounds g responses 0 5) ∧
    isExitKeyword "EXIT" = true ∧ isExitKeyword "Quit" = true ∧
    isExitKeyword " exit" = false ∧ isExitKeyword "exit " = false :=
  c10_exit_checked_only_in_loop "Done" (by decide) inpA respQ

/-- C4 counterexample: with the credential present and the file write
failing with an ordinary Exception ("Permission denied"), the error never
reaches the outermost handlers in `main` — `save_prd` catches it itself:
no exception escapes the try body, the trace carries `save_prd`'s message
and not `main`'s handler message, and the process still exits 0. -/
theorem c4_counterexample :
    (mainBody okIn okResp (Except.ok "doc")
        (Except.error (PyError.exception "Permission denied")) ⟨[], []⟩).2 =
      none ∧
    Event.printed (handlerMsg (PyError.exception "Permission denied")) ∉
      main keyEnv okIn okResp (Except.ok "doc")
        (Except.error (PyError.exception "Permission denied")) ∧
    Event.printed (foreRED ++ "Error saving file: Permission denied") ∈
      main keyEnv okIn okResp (Except.ok "doc")
        (Except.error (PyError.exception "Permission denied")) ∧
    (main keyEnv okIn okResp (Except.ok "doc")
        (Except.error (PyError.exception "Permission denied"))).getLast? =
      some (Event.exitedProcess 0) := by
  refine ⟨rfl, by decide, by decide, rfl⟩

/-- C4 (amended): with the credential present, every error escaping the try
body — a generation failure or a keyboard interruption, wherever it is
raised — is caught by `main`'s handlers and reported as a console message,
and the process always ends with exit status 0 (no structured error code);
a file-write failure by an ordinary Exception, however, is caught inside
`save_prd` and reported there, so it never reaches `main`'s handlers. -/
theorem c4_amended_error_reporting (env : String → Option String)
    (inputs responses : Nat → Except PyError String)
    (prdResponse : Except PyError String) (writeResult : Except PyError Unit)
    (k : String) (henv : env "GOOGLE_API_KEY" = some k) (hk : k ≠ "") :
    (main env inputs responses prdResponse writeResult).getLast? =
      some (Event.exitedProcess 0) ∧
    (∀ e,
      (mainBody inputs responses prdResponse writeResult ⟨[], []⟩).2 = some e →
      Event.printed (handlerMsg e) ∈
        main env inputs responses prdResponse writeResult) ∧
    ∀ m content st,
      save_prd (Except.error (PyError.exception m)) content "PRD.md" st =
        (pushEvents st
          [Event.printed (foreRED ++ "Error saving file: " ++ m)], none) := by
  have hcfg : configure_genai env = ([], none) := by
    simp [configure_genai, isFalsyEnv, henv, hk]
  refine ⟨?_, ?_, ?_⟩
  · simp only [main, hcfg]
    cases hb : mainBody inputs responses prdResponse writeResult ⟨[], []⟩ with
    | mk st err =>
      cases err with
      | none => exact List.getLast?_concat _
      | some e =>
        show (st.events ++
            [Event.printed (handlerMsg e), Event.exitedProcess 0]).getLast? =
          some (Event.exitedProcess 0)
        rw [show st.events ++
            [Event.printed (handlerMsg e), Event.exitedProcess 0] =
            (st.events ++ [Event.printed (handlerMsg e)]) ++
              [Event.exitedProcess 0] by simp]
        exact List.getLast?_concat _
  · intro e he
    simp only [main, hcfg]
    cases hb : mainBody inputs responses prdResponse writeResult ⟨[], []⟩ with
    | mk st err =>
      rw [hb] at he
      simp at he
      subst he
      show Event.printed (handlerMsg e) ∈
        st.events ++ [Event.printed (handlerMsg e), Event.exitedProcess 0]
      simp
  · intro m content st
    simp [save_prd]

theorem c4_amended_error_reporting_witness :
    (main keyEnv okIn failResp (Except.ok "doc") (Except.ok ())).getLast? =
      some (Event.exitedProcess 0) ∧
    (∀ e,
      (mainBody okIn failResp (Except.ok "doc") (Except.ok ()) ⟨[], []⟩).2 =
        some e →
      Event.printed (handlerMsg e) ∈
        main keyEnv okIn failResp (Except.ok "doc") (Except.ok ())) ∧
    ∀ m content st,
      save_prd (Except.error (PyError.exception m)) content "PRD.md" st =
        (pushEvents st
          [Event.printed (foreRED ++ "Error saving file: " ++ m)], none) :=
  c4_amended_error_reporting keyEnv okIn failResp (Except.ok "doc")
    (Except.ok ()) "test-key" rfl (by decide)

/-- C9 counterexample: a run that succeeds end to end — interview completed,
generation call returned, save succeeded, the trace carries the success
message and ends in exit 0 — but whose generation response is the empty
string leaves PRD.md existing yet empty: the program never checks the
returned text for emptiness. -/
theorem c9_counterexample :
    applyEvents (fun _ => none)
        (main keyEnv okIn okResp (Except.ok "") (Except.ok ())) "PRD.md" =
      some "" ∧
    Event.printed (foreGREEN ++ "\nSuccess! PRD saved to PRD.md") ∈
      main keyEnv okIn okResp (Except.ok "") (Except.ok ()) ∧
    (main keyEnv okIn okResp (Except.ok "") (Except.ok ())).getLast? =
      some (Event.exitedProcess 0) ∧
    ∀ c,
      applyEvents (fun _ => none)
          (main keyEnv okIn okResp (Except.ok "") (Except.ok ())) "PRD.md" =
        some c → c.length = 0 := by
  refine ⟨rfl, by decide, rfl, ?_⟩
  intro c hc
  have h : applyEvents (fun _ => none)
      (main keyEnv okIn okResp (Except.ok "") (Except.ok ())) "PRD.md" =
      some ("" : String) := rfl
  rw [h] at hc
  simp at hc
  subst hc
  rfl

/-- C9 (amended): after a successful run — credential present, interview
returned normally, the generation call returned text `r`, save succeeded —
PRD.md exists with content exactly `r`, whatever the file system held
before; it is non-empty provided the returned text `r` is non-empty (a
condition the program itself never checks). -/
theorem c9_amended_file_exists (env : String → Option String)
    (inputs responses : Nat → Except PyError String) (r : String) (k : String)
    (henv : env "GOOGLE_API_KEY" = some k) (hk : k ≠ "")
    (hint : (start_interview inputs responses ⟨[], []⟩).2 = none)
    (hr : r ≠ "") (fs : String → Option String) :
    applyEvents fs (main env inputs responses (Except.ok r) (Except.ok ()))
        "PRD.md" = some r ∧ r ≠ "" := by
  refine ⟨?_, hr⟩
  have hcfg : configure_genai env = ([], none) := by
    simp [configure_genai, isFalsyEnv, henv, hk]
  simp only [main, hcfg]
  cases hsi : start_interview inputs responses ⟨[], []⟩ with
  | mk st1 err1 =>
    rw [hsi] at hint
    simp at hint
    subst hint
    simp only [mainBody, hsi, generate_prd, save_prd, pushEvents]
    simp [applyEvents_append, applyEvents]

theorem c9_amended_file_exists_witness :
    applyEvents (fun _ => none)
        (main keyEnv okIn okResp (Except.ok "doc") (Except.ok ())) "PRD.md" =
      some "doc" ∧ ("doc" : String) ≠ "" :=
  c9_amended_file_exists keyEnv okIn okResp "doc" "test-key" rfl (by decide)
    rfl (by decide) (fun _ => none)

end InterviewAgent
